import Mathlib

/-!
Verification of the adaptive question-selection and mastery-tracking engine of
the ruankao miniprogram repository, shallowly embedded from
`src/store/index.ts` (the zustand `useAppStore` definition and the
`MockDataService` class).

Conventions of the embedding:
* JavaScript numbers holding mastery scores are modelled as exact rationals
  (`ℚ`); the constants 0.5, 0.1, 0.05 of the source are `1/2`, `1/10`, `1/20`.
* The JS object `masteryMatrix` is an association list `List (String × ℚ)`
  with first-match lookup and update-in-place-or-append assignment, matching
  object key semantics (keys are unique in practice, and the operations below
  are faithful regardless).
* The expression `newMasteryMatrix[point] || 0.5` of the source is embedded
  literally: a missing key *or a falsy stored value* (the only falsy rational
  is 0) yields 0.5.  See `getOrHalf`.
* `new Date().toISOString()` is modelled by an explicit `now : String`
  argument; `Math.random()` driven choices of `MockDataService` are modelled
  by explicit parameters (the permutation chosen by the random shuffle, and a
  `RandomPayload` for the per-item random score/reason/confidence/type).
* Answer records built by `submitAnswer` always carry their question, so the
  defensive truthiness guards of `getWrongQuestions`
  (`record && ... && record.question`) are identically true in the typed
  embedding and are dropped.
-/

/-- A question of the catalog, as in `MOCK_QUESTIONS` of `src/store/index.ts`:
id, content, options, correctAnswer, explanation, difficulty, subject,
category, knowledgePoints, year, usage_count, correct_rate. -/
structure Question where
  id : String
  content : String
  options : List String
  correctAnswer : String
  explanation : String
  difficulty : Nat
  subject : String
  category : String
  knowledgePoints : List String
  year : Nat
  usage_count : Nat
  correct_rate : ℚ
deriving DecidableEq

/-- An entry of `answerHistory`, as built by `submitAnswer`
(`src/store/index.ts` lines 86-93). -/
structure AnswerRecord where
  questionId : String
  userAnswer : String
  isCorrect : Bool
  responseTime : Nat
  answeredAt : String
  question : Question
deriving DecidableEq

/-- The `lastAnswer` payload set by `submitAnswer` (lines 120-123). -/
structure LastAnswer where
  isCorrect : Bool
  explanation : String
deriving DecidableEq

/-- The `userProfile` slice of the store state (lines 21-33). -/
structure UserProfile where
  id : String
  nickname : String
  avatar : String
  level : String
  targetExam : String
  masteryMatrix : List (String × ℚ)
  totalQuestions : Nat
  correctAnswers : Nat
  streak : Nat
  longestStreak : Nat
  studyDays : Nat
deriving DecidableEq

/-- The `useAppStore` state (lines 14-40). -/
structure AppState where
  currentQuestion : Option Question
  questionQueue : List Question
  currentIndex : Nat
  isLoading : Bool
  userProfile : UserProfile
  answerHistory : List AnswerRecord
  streak : Nat
  sessionQuestions : Nat
  sessionCorrect : Nat
  showResult : Bool
  lastAnswer : Option LastAnswer
deriving DecidableEq

/-- The initial store state (lines 14-40 of `src/store/index.ts`). -/
def initialState : AppState :=
  { currentQuestion := none
    questionQueue := []
    currentIndex := 0
    isLoading := false
    userProfile :=
      { id := "mock-user-001"
        nickname := "软考学霸"
        avatar := "https://img.icons8.com/fluency/96/user-male-circle.png"
        level := "初级程序员"
        targetExam := "程序员考试"
        masteryMatrix := []
        totalQuestions := 0
        correctAnswers := 0
        streak := 0
        longestStreak := 0
        studyDays := 1 }
    answerHistory := []
    streak := 0
    sessionQuestions := 0
    sessionCorrect := 0
    showResult := false
    lastAnswer := none }

/-- First-match lookup in the mastery matrix: `m[point]` on a JS object. -/
def lookupScore : List (String × ℚ) → String → Option ℚ
  | [], _ => none
  | (k, v) :: rest, p => if k = p then some v else lookupScore rest p

/-- Assignment `m[point] = v` on a JS object: replace the (unique) existing
binding of the key, or append a new binding. -/
def setScore : List (String × ℚ) → String → ℚ → List (String × ℚ)
  | [], k, v => [(k, v)]
  | (k2, v2) :: rest, k, v =>
      if k2 = k then (k2, v) :: rest else (k2, v2) :: setScore rest k v

/-- Embeds `newMasteryMatrix[point] || 0.5` (line 109): the JS `||` falls
through to the default 0.5 not only when the key is absent but also when the
stored value is falsy, and the only falsy rational is 0. -/
def getOrHalf (v : Option ℚ) : ℚ :=
  match v with
  | some x => if x = 0 then 1/2 else x
  | none => 1/2

/-- One iteration of the `currentQuestion.knowledgePoints.forEach` body of
`submitAnswer` (lines 108-112): read the current mastery with the `|| 0.5`
default, add +0.10 on a correct answer or -0.05 on a wrong one, clamp to
[0, 1], and store. -/
def masteryFold (isCorrect : Bool) (m : List (String × ℚ)) (point : String) :
    List (String × ℚ) :=
  let currentMastery := getOrHalf (lookupScore m point)
  let adjustment : ℚ := if isCorrect then 1/10 else -(1/20)
  setScore m point (max 0 (min 1 (currentMastery + adjustment)))

/-- `setCurrentQuestion` (lines 43-45). -/
def setCurrentQuestion (s : AppState) (question : Question) : AppState :=
  { s with currentQuestion := some question }

/-- `submitAnswer` (lines 80-133 of `src/store/index.ts`).  The wall-clock
reading `new Date().toISOString()` is passed in as `now`.  If no current
question is set the store is left unchanged (line 83). -/
def submitAnswer (s : AppState) (answer : String) (responseTime : Nat)
    (now : String) : AppState :=
  match s.currentQuestion with
  | none => s
  | some currentQuestion =>
    let isCorrect : Bool := answer == currentQuestion.correctAnswer
    let newAnswerRecord : AnswerRecord :=
      { questionId := currentQuestion.id
        userAnswer := answer
        isCorrect := isCorrect
        responseTime := responseTime
        answeredAt := now
        question := currentQuestion }
    let newAnswerHistory := s.answerHistory ++ [newAnswerRecord]
    let newStreak := if isCorrect then s.streak + 1 else 0
    let newTotalQuestions := s.userProfile.totalQuestions + 1
    let newCorrectAnswers :=
      s.userProfile.correctAnswers + (if isCorrect then 1 else 0)
    let newLongestStreak := max s.userProfile.longestStreak newStreak
    let newMasteryMatrix :=
      currentQuestion.knowledgePoints.foldl (masteryFold isCorrect)
        s.userProfile.masteryMatrix
    { s with
      answerHistory := newAnswerHistory
      streak := newStreak
      sessionQuestions := s.sessionQuestions + 1
      sessionCorrect := s.sessionCorrect + (if isCorrect then 1 else 0)
      showResult := true
      lastAnswer := some
        { isCorrect := isCorrect
          explanation := currentQuestion.explanation }
      userProfile :=
        { s.userProfile with
          totalQuestions := newTotalQuestions
          correctAnswers := newCorrectAnswers
          streak := newStreak
          longestStreak := newLongestStreak
          masteryMatrix := newMasteryMatrix } }

/-- `getWrongQuestions` deduplication step (lines 173-175):
`.filter((question, index, self) => index === self.findIndex(q => q.id === question.id))`,
i.e. keep an element iff its index is the first index carrying its id. -/
def dedupeById (l : List Question) : List Question :=
  ((l.enum).filter (fun p => l.findIdx (fun q => q.id == p.2.id) == p.1)).map
    (fun p => p.2)

/-- The body of `getWrongQuestions` (lines 163-180) as a function of the
answer history: keep the incorrect records, project their questions, and
deduplicate by id. -/
def getWrongQuestionsOf (answerHistory : List AnswerRecord) : List Question :=
  dedupeById ((answerHistory.filter (fun r => !r.isCorrect)).map
    (fun r => r.question))

/-- `getWrongQuestions` (lines 163-180). -/
def getWrongQuestions (s : AppState) : List Question :=
  getWrongQuestionsOf s.answerHistory

/-- The body of `clearWrongAnswers` (lines 218-222) as a function of the
answer history: keep only the correct records. -/
def clearWrongAnswersOf (answerHistory : List AnswerRecord) :
    List AnswerRecord :=
  answerHistory.filter (fun r => r.isCorrect)

/-- `clearWrongAnswers` (lines 218-222). -/
def clearWrongAnswers (s : AppState) : AppState :=
  { s with answerHistory := clearWrongAnswersOf s.answerHistory }

/-- `markQuestionAsMastered` (lines 225-231). -/
def markQuestionAsMastered (s : AppState) (questionId : String) : AppState :=
  { s with
    answerHistory :=
      s.answerHistory.filter
        (fun r => !(r.questionId == questionId && !r.isCorrect)) }

/-- Question `q_001` of `MOCK_QUESTIONS`. -/
def q001 : Question :=
  { id := "q_001"
    content := "在UML类图中，下列哪种关系表示\"has-a\"关系？"
    options := ["A. 继承关系(Inheritance)", "B. 实现关系(Realization)",
      "C. 组合关系(Composition)", "D. 依赖关系(Dependency)"]
    correctAnswer := "C"
    explanation := "组合关系表示整体与部分的关系，即'has-a'关系。组合是一种强聚合关系，表示整体拥有部分，部分不能脱离整体单独存在。"
    difficulty := 3
    subject := "软件工程"
    category := "UML建模"
    knowledgePoints := ["UML类图", "关系类型", "面向对象设计"]
    year := 2023
    usage_count := 1250
    correct_rate := 68/100 }

/-- Question `q_002` of `MOCK_QUESTIONS`. -/
def q002 : Question :=
  { id := "q_002"
    content := "关系数据库中，用于保证数据完整性的约束不包括？"
    options := ["A. 主键约束(Primary Key)", "B. 外键约束(Foreign Key)",
      "C. 检查约束(Check)", "D. 索引约束(Index)"]
    correctAnswer := "D"
    explanation := "索引约束不是数据完整性约束。索引是为了提高查询效率而创建的数据结构，不用于保证数据完整性。数据完整性约束包括：主键约束、外键约束、检查约束、唯一约束等。"
    difficulty := 2
    subject := "数据库系统"
    category := "数据库设计"
    knowledgePoints := ["数据完整性", "约束类型", "关系数据库"]
    year := 2023
    usage_count := 980
    correct_rate := 75/100 }

/-- Question `q_003` of `MOCK_QUESTIONS`. -/
def q003 : Question :=
  { id := "q_003"
    content := "TCP协议采用什么机制来保证可靠传输？"
    options := ["A. 滑动窗口和确认应答", "B. 路由选择和拥塞控制",
      "C. 数据加密和身份验证", "D. 负载均衡和故障转移"]
    correctAnswer := "A"
    explanation := "TCP使用滑动窗口机制控制发送速率，使用确认应答(ACK)机制确保数据包被正确接收。这两个机制配合超时重传、序号机制等，共同保证TCP的可靠传输。"
    difficulty := 3
    subject := "计算机网络"
    category := "传输层协议"
    knowledgePoints := ["TCP协议", "可靠传输", "滑动窗口"]
    year := 2024
    usage_count := 1580
    correct_rate := 62/100 }

/-- Question `q_004` of `MOCK_QUESTIONS`. -/
def q004 : Question :=
  { id := "q_004"
    content := "下列排序算法中，时间复杂度为O(n log n)且稳定的是？"
    options := ["A. 快速排序", "B. 堆排序", "C. 归并排序", "D. 选择排序"]
    correctAnswer := "C"
    explanation := "归并排序的时间复杂度始终为O(n log n)，且是稳定的排序算法。快速排序平均时间复杂度为O(n log n)但不稳定，堆排序时间复杂度为O(n log n)但不稳定。"
    difficulty := 3
    subject := "数据结构与算法"
    category := "排序算法"
    knowledgePoints := ["排序算法", "时间复杂度", "算法稳定性"]
    year := 2024
    usage_count := 1420
    correct_rate := 71/100 }

/-- Question `q_005` of `MOCK_QUESTIONS`. -/
def q005 : Question :=
  { id := "q_005"
    content := "在面向对象编程中，多态性的实现依赖于？"
    options := ["A. 继承和方法重载", "B. 继承和方法重写", "C. 封装和继承",
      "D. 抽象和接口"]
    correctAnswer := "B"
    explanation := "多态性主要通过继承和方法重写（覆盖）来实现。子类继承父类后，重写父类的方法，在运行时根据对象的实际类型调用相应的方法。"
    difficulty := 2
    subject := "面向对象编程"
    category := "多态性"
    knowledgePoints := ["多态性", "继承", "方法重写"]
    year := 2024
    usage_count := 890
    correct_rate := 78/100 }

/-- The `MOCK_QUESTIONS` catalog (lines 235-331 of `src/store/index.ts`). -/
def MOCK_QUESTIONS : List Question := [q001, q002, q003, q004, q005]

/-- A recommendation object returned by
`MockDataService.getRecommendedQuestions` (lines 416-423). -/
structure Recommendation where
  question_id : String
  question : Question
  score : ℚ
  reason : String
  confidence : ℚ
  recommendation_type : String
deriving DecidableEq

/-- The `Math.random()` driven per-item payload of
`MockDataService.getRecommendedQuestions`: random score in [0.7, 1.0], a
random canned reason, random confidence in [0.6, 1.0] and a random
recommendation type.  None of them influence which questions are selected. -/
structure RandomPayload where
  score : Question → ℚ
  reason : Question → String
  confidence : Question → ℚ
  rtype : Question → String

/-- A fixed payload instance (used where the payload is irrelevant). -/
def defaultPayload : RandomPayload :=
  { score := fun _ => 7/10
    reason := fun _ => "基于你的学习历史，此题目有助于知识点巩固"
    confidence := fun _ => 6/10
    rtype := fun _ => "collaborative" }

/-- `MockDataService.getRecommendedQuestions` (lines 410-424).  The random
shuffle `[...MOCK_QUESTIONS].sort(() => 0.5 - Math.random())` produces some
permutation of `MOCK_QUESTIONS`; that permutation is the explicit `shuffled`
argument.  The body then takes the first `count` questions and wraps each in
a recommendation object whose score/reason/confidence/type come from further
random draws, modelled by `pay`. -/
def getRecommendedQuestions (shuffled : List Question) (count : Nat)
    (pay : RandomPayload) : List Recommendation :=
  (shuffled.take count).map (fun question =>
    { question_id := question.id
      question := question
      score := pay.score question
      reason := pay.reason question
      confidence := pay.confidence question
      recommendation_type := pay.rtype question })

/-- An answer event as replayed through the UI flow: the UI sets the current
question, then calls `submitAnswer` with the chosen answer; `now` is the
wall-clock reading at submission time. -/
structure Event where
  question : Question
  answer : String
  responseTime : Nat
  now : String

/-- Recording one event: `setCurrentQuestion` followed by `submitAnswer`. -/
def stepEvent (s : AppState) (e : Event) : AppState :=
  submitAnswer (setCurrentQuestion s e.question) e.answer e.responseTime e.now

/-- Recording a sequence of events in order. -/
def runEvents (s : AppState) (evs : List Event) : AppState :=
  evs.foldl stepEvent s

/-- A fresh Mastery Model plus fresh Session Counters, the projection of the
store state that claim C4 compares against a full replay. -/
structure ReplayState where
  mastery : List (String × ℚ)
  answered : Nat
  correct : Nat
  streak : Nat
  longestStreak : Nat
deriving DecidableEq

/-- The fresh replay state: empty mastery model, zeroed counters (matching
the initial store state). -/
def freshReplay : ReplayState :=
  { mastery := [], answered := 0, correct := 0, streak := 0,
    longestStreak := 0 }

/-- One replay step: the mastery update and counter update of `submitAnswer`
applied to a bare (mastery, counters) state. -/
def replayStep (rs : ReplayState) (e : Event) : ReplayState :=
  let isCorrect : Bool := e.answer == e.question.correctAnswer
  let newStreak := if isCorrect then rs.streak + 1 else 0
  { mastery := e.question.knowledgePoints.foldl (masteryFold isCorrect)
      rs.mastery
    answered := rs.answered + 1
    correct := rs.correct + (if isCorrect then 1 else 0)
    streak := newStreak
    longestStreak := max rs.longestStreak newStreak }

/-- Replaying a full event sequence into a fresh replay state. -/
def replayRun (evs : List Event) : ReplayState :=
  evs.foldl replayStep freshReplay

/-- The (mastery, session counters) projection of a store state. -/
def projState (s : AppState) : ReplayState :=
  { mastery := s.userProfile.masteryMatrix
    answered := s.sessionQuestions
    correct := s.sessionCorrect
    streak := s.streak
    longestStreak := s.userProfile.longestStreak }

/-- All mastery scores of a matrix lie in [0, 1]. -/
def InBounds (m : List (String × ℚ)) : Prop :=
  ∀ p v, (p, v) ∈ m → 0 ≤ v ∧ v ≤ 1

/-- Modelled from the spec: the §4.2 mastery update rule
`newScore = clamp(oldScore + (isCorrect ? +0.10 : -0.05), 0.0, 1.0)`,
stated on the old score directly (no falsy-default re-reading). -/
def specMasteryUpdate (oldScore : ℚ) (isCorrect : Bool) : ℚ :=
  max 0 (min 1 (oldScore + if isCorrect then 1/10 else -(1/20)))

/-- Modelled from the spec: `get(user, knowledgePoint)` of §4.2, returning
0.5 for an unseen knowledge point and the stored score otherwise. -/
def specGet (m : List (String × ℚ)) (point : String) : ℚ :=
  (lookupScore m point).getD (1/2)

/-- Modelled from the spec: the average mastery of a question's tagged
knowledge points (claim C7 / spec §4.3 step 1). -/
def avgMastery (m : List (String × ℚ)) (q : Question) : ℚ :=
  ((q.knowledgePoints.map (specGet m)).sum) / (q.knowledgePoints.length : ℚ)

/-- Modelled from the spec: the per-question selection weight of claim C7 —
base weight 1.0 multiplied by (1.5 - average mastery), floored at 0.1. -/
def claimWeight (m : List (String × ℚ)) (q : Question) : ℚ :=
  max (1/10) (1 * (3/2 - avgMastery m q))

/-- Every possible outcome of the random shuffle
`[...MOCK_QUESTIONS].sort(() => 0.5 - Math.random())`: some permutation of
the 5-question catalog. -/
def shuffleOutcomes : List (List Question) :=
  MOCK_QUESTIONS.permutations

/-- Given a probability mass `D` on the shuffle outcomes, the probability
that the single question selected by `getRecommendedQuestions _ 1 _` is the
one with id `qid`. -/
def codeFirstProb (D : List Question → ℚ) (qid : String) : ℚ :=
  ((shuffleOutcomes.filter (fun sh =>
    ((getRecommendedQuestions sh 1 defaultPayload).map
      (fun r => r.question_id)) == [qid])).map D).sum

/-- Formalization of claim C7: the selection engine samples without
replacement with per-question weight `claimWeight`, so for every user
mastery state the probability that a single-question batch selects `q`
equals `claimWeight m q / Σ claimWeight m`.  The engine's randomness is some
probability mass `D` over the shuffle outcomes, fixed by the implementation
and therefore independent of the mastery state. -/
def ClaimC7Selection : Prop :=
  ∃ D : List Question → ℚ, ∀ (m : List (String × ℚ)) (q : Question),
    q ∈ MOCK_QUESTIONS →
      codeFirstProb D q.id =
        claimWeight m q / ((MOCK_QUESTIONS.map (claimWeight m)).sum)

/-- A mastery state in which every knowledge point of `q001` is maximally
weak (score 0) and all other knowledge points are unseen. -/
def mWeak : List (String × ℚ) :=
  [("UML类图", 0), ("关系类型", 0), ("面向对象设计", 0)]

/-- A mastery state in which every knowledge point of `q001` is maximally
strong (score 1) and all other knowledge points are unseen. -/
def mStrong : List (String × ℚ) :=
  [("UML类图", 1), ("关系类型", 1), ("面向对象设计", 1)]

/-- A question tagged with the single knowledge point `"K1"`, used as the
concrete failing input of claim C3. -/
def qK : Question :=
  { id := "q_k"
    content := "k"
    options := ["A. a", "B. b"]
    correctAnswer := "A"
    explanation := "e"
    difficulty := 1
    subject := "s"
    category := "c"
    knowledgePoints := ["K1"]
    year := 2024
    usage_count := 0
    correct_rate := 1/2 }

/-- A wrong answer to `qK` (its correct answer is "A"). -/
def evWrongK : Event :=
  { question := qK, answer := "B", responseTime := 5, now := "t" }

/-- A correct answer to `qK`. -/
def evCorrectK : Event :=
  { question := qK, answer := "A", responseTime := 5, now := "t" }

/-- The iterated mastery update of `k` consecutive wrong answers to a
question tagged with the single knowledge point `"K1"` (proof helper). -/
def wrongTimes : Nat → List (String × ℚ) → List (String × ℚ)
  | 0, m => m
  | k+1, m => wrongTimes k (masteryFold false m "K1")

/-- The event sequence [correct, correct, incorrect, correct] of the streak
scenario of claim C6. -/
def streakDemoEvents : List Event :=
  [evCorrectK, evCorrectK, evWrongK, evCorrectK]

/-- The event sequence [wrong(Q1), wrong(Q2), correct(Q1)] of claim C1,
realized on the catalog questions `q001` (correct answer "C", answered "A"
then "C") and `q002` (correct answer "D", answered "A"). -/
def wwcEvents : List Event :=
  [{ question := q001, answer := "A", responseTime := 5, now := "t1" },
   { question := q002, answer := "A", responseTime := 5, now := "t2" },
   { question := q001, answer := "C", responseTime := 5, now := "t3" }]

/-- The store state after recording `wwcEvents` from the initial state. -/
def wwcState : AppState := runEvents initialState wwcEvents

/-- The store state after submitting the identical answer to `q001` twice in
a row (a UI double-tap): the duplicate-recording scenario of claim C2. -/
def doubleSubmitState : AppState :=
  submitAnswer (submitAnswer (setCurrentQuestion initialState q001)
    "A" 5 "t1") "A" 5 "t1"

/-- The store state after one correct answer (its review queue is empty). -/
def oneCorrectState : AppState := runEvents initialState [evCorrectK]

theorem projState_stepEvent (s : AppState) (e : Event) :
    projState (stepEvent s e) = replayStep (projState s) e := rfl

theorem projState_runEvents (evs : List Event) :
    ∀ s : AppState,
      projState (runEvents s evs) = evs.foldl replayStep (projState s) := by
  induction evs with
  | nil => intro s; rfl
  | cons e evs ih =>
      intro s
      have h1 : runEvents s (e :: evs) = runEvents (stepEvent s e) evs := rfl
      rw [h1, ih (stepEvent s e), projState_stepEvent]
      rfl

theorem wrongK_mastery (k : Nat) :
    ∀ s : AppState,
      (runEvents s (List.replicate k evWrongK)).userProfile.masteryMatrix =
        wrongTimes k s.userProfile.masteryMatrix := by
  induction k with
  | zero => intro s; rfl
  | succ k ih =>
      intro s
      have h1 : List.replicate (k + 1) evWrongK =
          evWrongK :: List.replicate k evWrongK := rfl
      have h2 : runEvents s (evWrongK :: List.replicate k evWrongK) =
          runEvents (stepEvent s evWrongK) (List.replicate k evWrongK) := rfl
      rw [h1, h2, ih (stepEvent s evWrongK)]
      rfl

theorem mem_setScore (m : List (String × ℚ)) (k p : String) (x v : ℚ)
    (h : (p, v) ∈ setScore m k x) : v = x ∨ (p, v) ∈ m := by
  induction m with
  | nil =>
      simp only [setScore, List.mem_singleton] at h
      exact Or.inl (congrArg Prod.snd h)
  | cons hd tl ih =>
      obtain ⟨k2, v2⟩ := hd
      by_cases hk : k2 = k
      · simp only [setScore, if_pos hk, List.mem_cons] at h
        rcases h with h | h
        · exact Or.inl (congrArg Prod.snd h)
        · exact Or.inr (List.mem_cons_of_mem _ h)
      · simp only [setScore, if_neg hk, List.mem_cons] at h
        rcases h with h | h
        · exact Or.inr (List.mem_cons.mpr (Or.inl h))
        · rcases ih h with h | h
          · exact Or.inl h
          · exact Or.inr (List.mem_cons_of_mem _ h)

theorem clamp_bounds (x : ℚ) : 0 ≤ max 0 (min 1 x) ∧ max 0 (min 1 x) ≤ 1 :=
  ⟨le_max_left 0 _, max_le (by norm_num) (min_le_left 1 x)⟩

theorem InBounds_masteryFold (b : Bool) (m : List (String × ℚ)) (p : String)
    (h : InBounds m) : InBounds (masteryFold b m p) := by
  intro p' v' hmem
  rcases mem_setScore _ _ _ _ _ hmem with hv | hv
  · rw [hv]; exact clamp_bounds _
  · exact h p' v' hv

theorem InBounds_foldl (b : Bool) (pts : List String) :
    ∀ m : List (String × ℚ), InBounds m →
      InBounds (pts.foldl (masteryFold b) m) := by
  induction pts with
  | nil => intro m h; exact h
  | cons pt pts ih =>
      intro m h
      exact ih (masteryFold b m pt) (InBounds_masteryFold b m pt h)

theorem InBounds_stepEvent (s : AppState) (e : Event)
    (h : InBounds s.userProfile.masteryMatrix) :
    InBounds (stepEvent s e).userProfile.masteryMatrix := by
  have hm : (stepEvent s e).userProfile.masteryMatrix =
      e.question.knowledgePoints.foldl
        (masteryFold (e.answer == e.question.correctAnswer))
        s.userProfile.masteryMatrix := rfl
  rw [hm]
  exact InBounds_foldl _ _ _ h

theorem lookupScore_setScore_ne (m : List (String × ℚ)) (k p : String)
    (v : ℚ) (h : k ≠ p) : lookupScore (setScore m k v) p = lookupScore m p := by
  induction m with
  | nil => simp [setScore, lookupScore, h]
  | cons hd tl ih =>
      obtain ⟨k2, v2⟩ := hd
      by_cases hk : k2 = k
      · subst hk
        simp [setScore, lookupScore, h]
      · by_cases hp : k2 = p
        · simp [setScore, lookupScore, hk, hp, Ne.symm h]
        · simp [setScore, lookupScore, hk, hp, ih]

theorem lookupScore_foldl_notMem (b : Bool) (pts : List String) :
    ∀ (m : List (String × ℚ)) (p : String), p ∉ pts →
      lookupScore (pts.foldl (masteryFold b) m) p = lookupScore m p := by
  induction pts with
  | nil => intro m p _; rfl
  | cons pt pts ih =>
      intro m p hp
      have hne : pt ≠ p := fun hc => hp (hc ▸ List.mem_cons_self pt pts)
      have hp2 : p ∉ pts := fun hc => hp (List.mem_cons_of_mem _ hc)
      calc lookupScore ((pt :: pts).foldl (masteryFold b) m) p
          = lookupScore (pts.foldl (masteryFold b) (masteryFold b m pt)) p :=
            rfl
        _ = lookupScore (masteryFold b m pt) p := ih _ p hp2
        _ = lookupScore m p := lookupScore_setScore_ne _ _ _ _ hne

/-- C3: the claim states the mastery update rule
`newScore = clamp(oldScore + (isCorrect ? +0.10 : -0.05), 0.0, 1.0)` with a
0.5 prior for unseen knowledge points.  The code violates it when the stored
score is exactly 0: the lookup `newMasteryMatrix[point] || 0.5` (line 109)
treats the falsy stored score 0 as unseen and restarts from 0.5.  Concrete
failing input: a knowledge point driven to score 0 by 10 consecutive wrong
answers; the 11th wrong answer should give clamp(0 - 0.05) = 0 per the
claim, but the code computes clamp(0.5 - 0.05) = 0.45. -/
theorem C3_code_bug_eval :
    lookupScore ((runEvents initialState
      (List.replicate 10 evWrongK)).userProfile.masteryMatrix) "K1" =
        some 0 ∧
    lookupScore ((runEvents initialState
      (List.replicate 11 evWrongK)).userProfile.masteryMatrix) "K1" =
        some (9/20) ∧
    specMasteryUpdate 0 false = 0 ∧
    (9/20 : ℚ) ≠ 0 := by
  refine ⟨?_, ?_, ?_, by norm_num⟩
  · rw [wrongK_mastery]
    norm_num [wrongTimes, masteryFold, getOrHalf, lookupScore, setScore,
      initialState, min_def, max_def]
  · rw [wrongK_mastery]
    norm_num [wrongTimes, masteryFold, getOrHalf, lookupScore, setScore,
      initialState, min_def, max_def]
  · norm_num [specMasteryUpdate, min_def, max_def]

/-- C4: replaying a user's full AnswerEvent sequence in order into a fresh
Mastery Model and fresh Session Counters (`replayRun`, starting from
`freshReplay`) yields scores and counters identical to the projection of the
incrementally updated store state obtained by `submitAnswer` after each
event. -/
theorem C4_replay_determinism (evs : List Event) :
    projState (runEvents initialState evs) = replayRun evs := by
  rw [projState_runEvents]
  rfl

/-- C5: starting from any state whose mastery scores all lie in [0, 1],
every mastery score still lies in [0, 1] after recording any sequence of
answer events (the update clamps into [0, 1] and untouched entries are
preserved). -/
theorem C5_mastery_bounds (s : AppState) (evs : List Event)
    (h : InBounds s.userProfile.masteryMatrix) :
    InBounds ((runEvents s evs).userProfile.masteryMatrix) := by
  induction evs generalizing s with
  | nil => exact h
  | cons e evs ih =>
      have h1 : runEvents s (e :: evs) = runEvents (stepEvent s e) evs := rfl
      rw [h1]
      exact ih (stepEvent s e) (InBounds_stepEvent s e h)

/-- Witness for C5 at the initial state and a single wrong answer. -/
theorem C5_witness :
    InBounds ((runEvents initialState [evWrongK]).userProfile.masteryMatrix) :=
  C5_mastery_bounds initialState [evWrongK]
    (by intro p v hmem; simp [initialState] at hmem)

/-- C1: the claim states that `getWrongQuestions` returns exactly the
questions whose latest answer event is incorrect, so that after
[wrong(Q1), wrong(Q2), correct(Q1)] it returns exactly [Q2].  The code
instead keeps every question that was ever answered incorrectly until it is
explicitly cleared or marked mastered: on that very sequence it returns
[Q1, Q2], not [Q2]. -/
theorem C1_counterexample :
    (getWrongQuestions wwcState).map (fun q => q.id) = ["q_001", "q_002"] ∧
    (["q_001", "q_002"] : List String) ≠ ["q_002"] := by
  constructor
  · rfl
  · decide

/-- C1 (amended): `getWrongQuestions` returns the questions having at least
one incorrect answer record, deduplicated by id keeping the first
occurrence; recording a further correct answer never removes a question from
the derived review queue. -/
theorem C1_amended (h : List AnswerRecord) (r : AnswerRecord)
    (hr : r.isCorrect = true) :
    getWrongQuestionsOf (h ++ [r]) = getWrongQuestionsOf h := by
  unfold getWrongQuestionsOf
  rw [List.filter_append]
  simp [hr]

/-- Witness for C1 (amended) at a concrete one-record history. -/
theorem C1_witness :
    getWrongQuestionsOf (oneCorrectState.answerHistory ++
      [{ questionId := "q_k", userAnswer := "A", isCorrect := true,
         responseTime := 5, answeredAt := "t", question := qK }]) =
      getWrongQuestionsOf oneCorrectState.answerHistory :=
  C1_amended oneCorrectState.answerHistory _ rfl

/-- C2: the claim states that recording the same (user, question, session)
answer event twice changes the ledger size by exactly 1 (the duplicate being
rejected as a no-op).  The code performs no duplicate detection: submitting
the identical answer twice appends two records, growing the history from 0
to 2. -/
theorem C2_counterexample :
    initialState.answerHistory.length = 0 ∧
    doubleSubmitState.answerHistory.length = 2 ∧
    (2 : Nat) ≠ 1 := by
  refine ⟨rfl, rfl, by decide⟩

/-- C2 (amended): every `submitAnswer` call with a current question set
appends exactly one record, with no duplicate check, so recording the same
event twice changes the ledger size by exactly 2. -/
theorem C2_amended (s : AppState) (q : Question) (a : String) (t : Nat)
    (n1 n2 : String) (h : s.currentQuestion = some q) :
    (submitAnswer (submitAnswer s a t n1) a t n2).answerHistory.length =
      s.answerHistory.length + 2 := by
  simp [submitAnswer, h]

/-- Witness for C2 (amended) at the initial state with `q001` current. -/
theorem C2_witness :
    (submitAnswer (submitAnswer (setCurrentQuestion initialState q001)
      "A" 5 "t1") "A" 5 "t2").answerHistory.length =
      (setCurrentQuestion initialState q001).answerHistory.length + 2 :=
  C2_amended (setCurrentQuestion initialState q001) q001 "A" 5 "t1" "t2" rfl

/-- C6: recording an incorrect answer sets the streak to 0 and a correct one
increments it by 1 (`streak' = if answer == correctAnswer then streak + 1
else 0`); `longestStreak` is the running maximum of the streak and never
decreases; and on the concrete sequence [correct, correct, incorrect,
correct] the final `longestStreak` is 2 and the final streak is 1. -/
theorem C6_streak (s : AppState) (q : Question) (ans : String) (t : Nat)
    (now : String) (h : s.currentQuestion = some q) :
    ((submitAnswer s ans t now).streak =
        (if ans == q.correctAnswer then s.streak + 1 else 0) ∧
      (submitAnswer s ans t now).userProfile.longestStreak =
        max s.userProfile.longestStreak (submitAnswer s ans t now).streak ∧
      s.userProfile.longestStreak ≤
        (submitAnswer s ans t now).userProfile.longestStreak) ∧
    ((runEvents initialState streakDemoEvents).userProfile.longestStreak = 2 ∧
      (runEvents initialState streakDemoEvents).streak = 1) := by
  refine ⟨⟨?_, ?_, ?_⟩, by decide, by decide⟩
  · simp [submitAnswer, h]
  · simp [submitAnswer, h]
  · simp only [submitAnswer, h]
    exact le_max_left _ _

/-- Witness for C6 at the initial state with `qK` current. -/
theorem C6_witness :
    (((submitAnswer (setCurrentQuestion initialState qK) "A" 5 "t").streak =
        (if "A" == qK.correctAnswer
          then (setCurrentQuestion initialState qK).streak + 1 else 0) ∧
      (submitAnswer (setCurrentQuestion initialState qK)
          "A" 5 "t").userProfile.longestStreak =
        max (setCurrentQuestion initialState qK).userProfile.longestStreak
          (submitAnswer (setCurrentQuestion initialState qK) "A" 5 "t").streak ∧
      (setCurrentQuestion initialState qK).userProfile.longestStreak ≤
        (submitAnswer (setCurrentQuestion initialState qK)
          "A" 5 "t").userProfile.longestStreak) ∧
    ((runEvents initialState streakDemoEvents).userProfile.longestStreak = 2 ∧
      (runEvents initialState streakDemoEvents).streak = 1)) :=
  C6_streak (setCurrentQuestion initialState qK) qK "A" 5 "t" rfl

theorem dedupeById_eq_nil (l : List Question) (h : dedupeById l = []) :
    l = [] := by
  cases l with
  | nil => rfl
  | cons q t =>
      exfalso
      have hhead : (0, q) ∈ ((q :: t).enum).filter
          (fun p => (q :: t).findIdx (fun q2 => q2.id == p.2.id) == p.1) := by
        apply List.mem_filter.mpr
        refine ⟨?_, ?_⟩
        · simp [List.enum_cons]
        · simp [List.findIdx_cons]
      have : q ∈ dedupeById (q :: t) := by
        unfold dedupeById
        exact List.mem_map.mpr ⟨(0, q), hhead, rfl⟩
      rw [h] at this
      exact (List.not_mem_nil q) this

theorem wrongFilter_eq_nil (hist : List AnswerRecord)
    (h : getWrongQuestionsOf hist = []) :
    hist.filter (fun r => !r.isCorrect) = [] := by
  unfold getWrongQuestionsOf at h
  have h2 := dedupeById_eq_nil _ h
  exact List.map_eq_nil_iff.mp h2

theorem filter_isCorrect_idem (l : List AnswerRecord) :
    (l.filter (fun r => r.isCorrect)).filter (fun r => r.isCorrect) =
      l.filter (fun r => r.isCorrect) := by
  induction l with
  | nil => rfl
  | cons r t ih =>
      by_cases hr : r.isCorrect
      · simp [List.filter_cons, hr, ih]
      · simp [List.filter_cons, hr, ih]

/-- C9: `clearWrongAnswers` is idempotent — applying it twice equals
applying it once — and when the derived review queue is already empty it is
a no-op leaving the answer history (indeed the whole state) unchanged. -/
theorem C9_clear_idempotent (s : AppState) :
    clearWrongAnswers (clearWrongAnswers s) = clearWrongAnswers s ∧
    (getWrongQuestions s = [] → clearWrongAnswers s = s) := by
  constructor
  · exact congrArg
      (fun l => ({ s with answerHistory := l } : AppState))
      (filter_isCorrect_idem s.answerHistory)
  · intro h
    have h1 : s.answerHistory.filter (fun r => !r.isCorrect) = [] :=
      wrongFilter_eq_nil s.answerHistory h
    have h2 : ∀ r ∈ s.answerHistory, r.isCorrect = true := by
      intro r hr
      have := List.filter_eq_nil_iff.mp h1 r hr
      simpa using this
    have h3 : s.answerHistory.filter (fun r => r.isCorrect) =
        s.answerHistory := List.filter_eq_self.mpr h2
    exact (congrArg
      (fun l => ({ s with answerHistory := l } : AppState)) h3).trans rfl

/-- Witness for C9 at a concrete state whose review queue is empty. -/
theorem C9_witness :
    clearWrongAnswers (clearWrongAnswers oneCorrectState) =
      clearWrongAnswers oneCorrectState ∧
    clearWrongAnswers oneCorrectState = oneCorrectState :=
  ⟨(C9_clear_idempotent oneCorrectState).1,
    (C9_clear_idempotent oneCorrectState).2 rfl⟩

/-- C10: `submitAnswer` only touches the mastery entries of the knowledge
points tagged on the answered question; every other knowledge point keeps
exactly its prior score. -/
theorem C10_frame (s : AppState) (q : Question) (point : String)
    (ans : String) (t : Nat) (now : String)
    (h : s.currentQuestion = some q) (hp : point ∉ q.knowledgePoints) :
    lookupScore ((submitAnswer s ans t now).userProfile.masteryMatrix)
        point =
      lookupScore s.userProfile.masteryMatrix point := by
  have hm : (submitAnswer s ans t now).userProfile.masteryMatrix =
      q.knowledgePoints.foldl (masteryFold (ans == q.correctAnswer))
        s.userProfile.masteryMatrix := by
    simp [submitAnswer, h]
  rw [hm]
  exact lookupScore_foldl_notMem _ _ _ _ hp

/-- Witness for C10: answering `qK` (tagged only with "K1") leaves the
score of the untagged knowledge point "TCP协议" unchanged. -/
theorem C10_witness :
    lookupScore ((submitAnswer (setCurrentQuestion initialState qK)
        "A" 5 "t").userProfile.masteryMatrix) "TCP协议" =
      lookupScore (setCurrentQuestion
        initialState qK).userProfile.masteryMatrix "TCP协议" :=
  C10_frame (setCurrentQuestion initialState qK) qK "TCP协议" "A" 5 "t" rfl
    (by decide)

theorem map_question_getRecommendedQuestions (sh : List Question)
    (count : Nat) (pay : RandomPayload) :
    (getRecommendedQuestions sh count pay).map (fun r => r.question) =
      sh.take count := by
  unfold getRecommendedQuestions
  generalize sh.take count = l
  induction l with
  | nil => rfl
  | cons q t ih => exact congrArg (List.cons q) ih

/-- C7: the claim states that `getRecommendedQuestions` samples questions
without replacement with per-question weight
`max 0.1 (1.0 * (1.5 - averageMastery))`, so that for every user the
selection probability of a question is proportional to its weight.  The
code's selection is a random shuffle of the fixed catalog followed by
`slice(0, count)`: it never reads the mastery state, so its selection
probabilities cannot track the mastery-dependent weights.  Formally, no
probability mass `D` over the shuffle outcomes makes the first-draw
probability equal `weight/totalWeight` for every mastery state: the
concrete states `mWeak` and `mStrong` give `q001` the distinct ratios 3/11
and 1/9 while the code-side probability is one and the same number. -/
theorem C7_counterexample :
    ¬ ClaimC7Selection ∧
    claimWeight mWeak q001 = 3/2 ∧
    claimWeight mStrong q001 = 1/2 := by
  refine ⟨?_, ?_, ?_⟩
  · rintro ⟨D, hD⟩
    have hmem : q001 ∈ MOCK_QUESTIONS := List.mem_cons_self _ _
    have h1 := hD mWeak q001 hmem
    have h2 := hD mStrong q001 hmem
    have w1 : claimWeight mWeak q001 /
        ((MOCK_QUESTIONS.map (claimWeight mWeak)).sum) = 3/11 := by
      norm_num +decide [claimWeight, avgMastery, specGet, lookupScore, mWeak,
        MOCK_QUESTIONS, q001, q002, q003, q004, q005, max_def]
    have w2 : claimWeight mStrong q001 /
        ((MOCK_QUESTIONS.map (claimWeight mStrong)).sum) = 1/9 := by
      norm_num +decide [claimWeight, avgMastery, specGet, lookupScore, mStrong,
        MOCK_QUESTIONS, q001, q002, q003, q004, q005, max_def]
    rw [w1] at h1
    rw [w2] at h2
    have : (3 : ℚ)/11 = 1/9 := h1.symm.trans h2
    norm_num at this
  · norm_num +decide [claimWeight, avgMastery, specGet, lookupScore, mWeak, q001,
      max_def]
  · norm_num +decide [claimWeight, avgMastery, specGet, lookupScore, mStrong, q001,
      max_def]

/-- C7 (amended): `getRecommendedQuestions` computes no per-question weight
and ignores the mastery model entirely: whatever permutation the random
shuffle produces, the selected questions are exactly its first `count`
elements, and the batch size is `min count 5`. -/
theorem C7_amended (sh : List Question) (count : Nat) (pay : RandomPayload)
    (h : sh.Perm MOCK_QUESTIONS) :
    (getRecommendedQuestions sh count pay).map (fun r => r.question) =
        sh.take count ∧
    (getRecommendedQuestions sh count pay).length = min count 5 := by
  constructor
  · exact map_question_getRecommendedQuestions sh count pay
  · have hlen : sh.length = 5 := h.length_eq
    unfold getRecommendedQuestions
    rw [List.length_map, List.length_take, hlen]

/-- Witness for C7 (amended) at the identity shuffle with count 2. -/
theorem C7_witness :
    (getRecommendedQuestions MOCK_QUESTIONS 2 defaultPayload).map
        (fun r => r.question) = MOCK_QUESTIONS.take 2 ∧
    (getRecommendedQuestions MOCK_QUESTIONS 2 defaultPayload).length =
      min 2 5 :=
  C7_amended MOCK_QUESTIONS 2 defaultPayload (List.Perm.refl _)

/-- C8: when fewer than `count` questions are available, the recommendation
call degrades gracefully: for any shuffle of the 5-question catalog and any
requested `count ≥ 5`, it returns all 5 questions (the whole shuffled
catalog) and no error — in particular requesting 10 returns exactly 5
recommendations. -/
theorem C8_graceful_degradation (sh : List Question) (pay : RandomPayload)
    (count : Nat) (h : sh.Perm MOCK_QUESTIONS) (hc : 5 ≤ count) :
    (getRecommendedQuestions sh count pay).map (fun r => r.question) = sh ∧
    (getRecommendedQuestions sh count pay).length = 5 := by
  have hlen : sh.length = 5 := h.length_eq
  constructor
  · rw [map_question_getRecommendedQuestions]
    exact List.take_of_length_le (by omega)
  · unfold getRecommendedQuestions
    rw [List.length_map, List.length_take, hlen]
    omega

/-- Witness for C8: requesting 10 questions from the 5-question catalog
returns exactly 5 recommendations covering the whole catalog. -/
theorem C8_witness :
    (getRecommendedQuestions MOCK_QUESTIONS 10 defaultPayload).map
        (fun r => r.question) = MOCK_QUESTIONS ∧
    (getRecommendedQuestions MOCK_QUESTIONS 10 defaultPayload).length = 5 :=
  C8_graceful_degradation MOCK_QUESTIONS defaultPayload 10
    (List.Perm.refl _) (by norm_num)
